import Mathlib

/-!
Verification of the forward-proxy server (src/src/main.rs) against its
natural-language specification.

The program is embedded shallowly: each non-blocking socket call is
represented by the outcome it would produce (`IOResult`), and the Rust
functions `pipe` and `handle_connection` become pure Lean functions over
those outcomes.  Bytes are modelled as natural numbers; buffers as lists.
-/

deriving instance DecidableEq for Except

namespace ProxyServer

/-- Outcome of one socket `read` or `write` call, as the Rust code observes
it: `ok n` for `Ok(n)`, `wouldBlock` for `Err(e)` with
`e.kind() == ErrorKind::WouldBlock`, and `otherError msg` for any other
`Err(e)` (with `msg` the formatted error). -/
inductive IOResult where
  | ok (n : Nat)
  | wouldBlock
  | otherError (msg : String)
deriving DecidableEq, Repr

/-- The `PipeError` enum of the source (src/src/main.rs lines 15-18). -/
inductive PipeError where
  | socketClosed
  | unknown (msg : String)
deriving DecidableEq, Repr

/-- The read phase of `pipe` (src/src/main.rs lines 26-35): when
`bytes_to_pass == 0`, one non-blocking read from `in_stream` is attempted
and its outcome is folded into `bytes_to_pass`; when `bytes_to_pass > 0`
no read happens and `bytes_to_pass` is kept. -/
def pipeReadPhase (readRes : IOResult) (bytes_to_pass : Nat) :
    Except PipeError Nat :=
  if bytes_to_pass = 0 then
    match readRes with
    | .ok 0 => .error .socketClosed
    | .ok n => .ok n
    | .wouldBlock => .ok 0
    | .otherError e => .error (.unknown e)
  else
    .ok bytes_to_pass

/-- The write phase of `pipe` (src/src/main.rs lines 37-51): when
`bytes_to_pass > 0`, one non-blocking write of `buffer[0..bytes_to_pass]`
to `out_stream` is attempted; the arms mirror the source `match` in order
(`Ok(0)`, `Ok(bytes) if bytes == bytes_to_pass`, `Ok(_)`, would-block,
other error). -/
def pipeWritePhase (writeRes : IOResult) (bytes_to_pass : Nat) :
    Except PipeError Nat :=
  if bytes_to_pass > 0 then
    match writeRes with
    | .ok 0 => .error .socketClosed
    | .ok b =>
        if b = bytes_to_pass then .ok 0
        else .error (.unknown "Unable to write all bytes to stream")
    | .wouldBlock => .ok bytes_to_pass
    | .otherError e => .error (.unknown e)
  else
    .ok bytes_to_pass

/-- The function `pipe` of src/src/main.rs (lines 20-54): one invocation of
the relay channel, given the outcome the source socket's read would
produce, the outcome the destination socket's write would produce, and the
current `bytes_to_pass` (the "pending" counter).  Returns the updated
pending count, or the channel's termination signal. -/
def pipe (readRes writeRes : IOResult) (bytes_to_pass : Nat) :
    Except PipeError Nat :=
  (pipeReadPhase readRes bytes_to_pass).bind (pipeWritePhase writeRes)

/-- A parsed HTTP request as the code consumes it: httparse's `Request`
exposes the method and the path as options (src/src/main.rs lines 60-65). -/
structure ParsedRequest where
  method : Option String
  path : Option String
deriving DecidableEq, Repr

/-- A resolved socket address: host literal and port. -/
abbrev SockAddr := String × Nat

/-- A minimal model of a parsed `url::Url` as the code uses it: the host
and the explicitly given port, if any. -/
structure ModelUrl where
  host : String
  port : Option Nat
deriving DecidableEq, Repr

/-- Modelled from the url crate's documented behaviour of
`Url::socket_addrs(default)` on http URLs: the host is resolved at the
URL's explicit port when one is given, else at the default the caller
supplies (the code passes a closure returning `Some(80)`,
src/src/main.rs line 77).  Name resolution itself is external and is
passed in as `resolve`. -/
def socketAddrs (resolve : String → Nat → Except String (List SockAddr))
    (u : ModelUrl) (defaultPort : Option Nat) :
    Except String (List SockAddr) :=
  match u.port.orElse (fun _ => defaultPort) with
  | none => .error "URL has no port"
  | some p => resolve u.host p

/-- Size of the header array `[httparse::EMPTY_HEADER; 16]`
(src/src/main.rs line 60). -/
def maxHeaders : Nat := 16

/-- The `initial_request_buffer` after the first client read: a 1024-byte
array whose leading bytes are the data the read placed there and whose
remainder keeps its zero initial value (src/src/main.rs lines 57-58; the
count returned by the read is discarded by `err_to_str!(...)?`). -/
def initialRequestBuffer (data : List Nat) : List Nat :=
  data.take 1024 ++ List.replicate (1024 - data.length) 0

/-- Bytes of an ASCII string. -/
def bytesOfString (s : String) : List Nat :=
  s.data.map (fun c => c.toNat)

/-- The literal CONNECT success reply `b"HTTP/1.1 200 OK\r\n\r\n"`
(src/src/main.rs line 71). -/
def connectOkReply : List Nat := bytesOfString "HTTP/1.1 200 OK\r\n\r\n"

/-- One `write` call issued during the handshake: the bytes handed to the
call and the result it produced. -/
structure WriteCall where
  data : List Nat
  result : Except String Nat
deriving DecidableEq, Repr

/-- An upstream connect attempt: `TcpStream::connect(path)` on the CONNECT
path string (line 69), or `TcpStream::connect(addr)` on a resolved socket
address (line 82). -/
inductive ConnectTarget where
  | hostPort (s : String)
  | addr (a : SockAddr)
deriving DecidableEq, Repr

/-- How the handshake ends: an aborted connection carrying the error
string `handle_connection` returns, or an established upstream stream
(CONNECT tunnel or plain-HTTP forwarding) ready for the relay loop. -/
inductive HandshakeOutcome where
  | failed (e : String)
  | established (isConnect : Bool)
deriving DecidableEq, Repr

/-- Observable trace of one handshake: the write calls issued on the
client socket, the write calls issued on the upstream socket, the
upstream connect attempts in order, and the outcome. -/
structure HandshakeTrace where
  clientWrites : List WriteCall
  serverWrites : List WriteCall
  connects : List ConnectTarget
  outcome : HandshakeOutcome
deriving DecidableEq, Repr

/-- Trace of a handshake that aborted before any write or connect. -/
def earlyFail (e : String) : HandshakeTrace := ⟨[], [], [], .failed e⟩

/-- Results of the external calls `handle_connection` makes during the
handshake, in program order: the initial client read (the bytes it placed
in the buffer), the httparse parse of the buffer, the CONNECT-path
connect, the client write, the URL parse, name resolution, the
resolved-address connect, and the upstream write. -/
structure NetEnv where
  clientRead : Except String (List Nat)
  parse : Nat → List Nat → Except String ParsedRequest
  connectHost : String → Except String Unit
  clientWriteRes : List Nat → Except String Nat
  urlParse : String → Except String ModelUrl
  resolve : String → Nat → Except String (List SockAddr)
  connectAddr : SockAddr → Except String Unit
  serverWriteRes : List Nat → Except String Nat

/-- The handshake phase of `handle_connection` (src/src/main.rs lines
56-85): read the initial request into the zero-filled buffer, parse it,
extract method and path, and either open a CONNECT tunnel (writing the
literal 200 reply to the client and forwarding nothing upstream) or, for
any other method, parse the path as an absolute URL, resolve it with
default port 80, connect to the first resolved address and write the
whole `initial_request_buffer` upstream.  Every `err_to_str!(...)?`
failure aborts with the error string. -/
def handshake (env : NetEnv) : HandshakeTrace :=
  match env.clientRead with
  | .error e => earlyFail e
  | .ok data =>
    match env.parse maxHeaders (initialRequestBuffer data) with
    | .error e => earlyFail e
    | .ok request =>
      match request.method with
      | none => earlyFail "Unable to get request method"
      | some method =>
        match request.path with
        | none => earlyFail "Unable to get request path"
        | some path =>
          if method = "CONNECT" then
            match env.connectHost path with
            | .error e => ⟨[], [], [.hostPort path], .failed e⟩
            | .ok _ =>
              match env.clientWriteRes connectOkReply with
              | .error e =>
                  ⟨[⟨connectOkReply, .error e⟩], [], [.hostPort path],
                    .failed e⟩
              | .ok n =>
                  ⟨[⟨connectOkReply, .ok n⟩], [], [.hostPort path],
                    .established true⟩
          else
            match env.urlParse path with
            | .error e => earlyFail e
            | .ok u =>
              match socketAddrs env.resolve u (some 80) with
              | .error e => earlyFail e
              | .ok addrs =>
                match addrs.head? with
                | none => earlyFail "Unable to parse url into socket address"
                | some a =>
                  match env.connectAddr a with
                  | .error e => ⟨[], [], [.addr a], .failed e⟩
                  | .ok _ =>
                    match env.serverWriteRes (initialRequestBuffer data) with
                    | .error e =>
                        ⟨[], [⟨initialRequestBuffer data, .error e⟩],
                          [.addr a], .failed e⟩
                    | .ok n =>
                        ⟨[], [⟨initialRequestBuffer data, .ok n⟩],
                          [.addr a], .established false⟩

/-- The bytes a peer actually receives from a list of write calls: each
successful call delivers the prefix of its data the socket accepted; a
failed call delivers nothing. -/
def delivered (calls : List WriteCall) : List Nat :=
  calls.foldr
    (fun c acc =>
      (match c.result with
       | .ok n => c.data.take n
       | .error _ => []) ++ acc) []

/-- The I/O outcomes one iteration of the relay loop would observe: the
client→server pipe's read (from the client) and write (to the server),
then the server→client pipe's read (from the server) and write (to the
client). -/
structure RelayIter where
  fromClient : IOResult
  toServer : IOResult
  fromServer : IOResult
  toClient : IOResult
deriving DecidableEq, Repr

/-- One iteration of the relay loop of `handle_connection`
(src/src/main.rs lines 102-124): the client→server pipe runs first, then
the server→client pipe; a `SocketClosed` from either is reported as
"Client socket closed" / "Server socket closed" respectively, an
`Unknown e` as `e`, and either error ends the whole connection. -/
def relayStep (it : RelayIter) (st : Nat × Nat) :
    Except String (Nat × Nat) :=
  match pipe it.fromClient it.toServer st.1 with
  | .error .socketClosed => .error "Client socket closed"
  | .error (.unknown e) => .error e
  | .ok p2 =>
    match pipe it.fromServer it.toClient st.2 with
    | .error .socketClosed => .error "Server socket closed"
    | .error (.unknown e) => .error e
    | .ok q2 => .ok (p2, q2)

/-- The relay loop, driven by the list of per-iteration I/O outcomes.  The
Rust `loop` has no normal exit, so `.ok st` means the loop is still
running in state `st` when the supplied outcomes run out: the only way the
connection ends is an `.error` from one of the two pipes. -/
def relayLoop : List RelayIter → Nat × Nat → Except String (Nat × Nat)
  | [], st => .ok st
  | it :: rest, st =>
    match relayStep it st with
    | .error e => .error e
    | .ok st2 => relayLoop rest st2

/-- The example plain-HTTP request of the spec (§8). -/
def exampleRequest : List Nat :=
  bytesOfString "GET http://example.com/ HTTP/1.1\r\nHost: example.com\r\n\r\n"

/-- A concrete environment for the example request: the client sends the
example request, parsing succeeds with method GET and the absolute-URL
path, the URL resolves to one address, the connect succeeds, and each
write accepts everything offered to it. -/
def exampleEnv : NetEnv where
  clientRead := .ok exampleRequest
  parse := fun _ _ => .ok ⟨some "GET", some "http://example.com/"⟩
  connectHost := fun _ => .error "unused"
  clientWriteRes := fun bs => .ok bs.length
  urlParse := fun _ => .ok ⟨"example.com", none⟩
  resolve := fun _ _ => .ok [("93.184.216.34", 80)]
  connectAddr := fun _ => .ok ()
  serverWriteRes := fun bs => .ok bs.length

/-- A concrete environment for a successful CONNECT handshake to
`example.com:443`: connect succeeds and every write accepts all bytes
offered to it. -/
def exampleConnectEnv : NetEnv where
  clientRead := .ok (bytesOfString "CONNECT example.com:443 HTTP/1.1\r\n\r\n")
  parse := fun _ _ => .ok ⟨some "CONNECT", some "example.com:443"⟩
  connectHost := fun _ => .ok ()
  clientWriteRes := fun bs => .ok bs.length
  urlParse := fun _ => .error "unused"
  resolve := fun _ _ => .error "unused"
  connectAddr := fun _ => .error "unused"
  serverWriteRes := fun _ => .error "unused"

/-- A concrete environment whose initial request fails to parse. -/
def badParseEnv : NetEnv where
  clientRead := .ok exampleRequest
  parse := fun _ _ => .error "bad request"
  connectHost := fun _ => .error "unused"
  clientWriteRes := fun _ => .error "unused"
  urlParse := fun _ => .error "unused"
  resolve := fun _ _ => .error "unused"
  connectAddr := fun _ => .error "unused"
  serverWriteRes := fun _ => .error "unused"

/-- A concrete environment for a CONNECT request whose target refuses the
TCP connection. -/
def refusedConnectEnv : NetEnv where
  clientRead := .ok (bytesOfString "CONNECT example.com:443 HTTP/1.1\r\n\r\n")
  parse := fun _ _ => .ok ⟨some "CONNECT", some "example.com:443"⟩
  connectHost := fun _ => .error "Connection refused"
  clientWriteRes := fun bs => .ok bs.length
  urlParse := fun _ => .error "unused"
  resolve := fun _ _ => .error "unused"
  connectAddr := fun _ => .error "unused"
  serverWriteRes := fun _ => .error "unused"

/-- A concrete environment for a successful CONNECT handshake whose
client write accepts only 1 of the 19 reply bytes. -/
def shortWriteEnv : NetEnv where
  clientRead := .ok (bytesOfString "CONNECT example.com:443 HTTP/1.1\r\n\r\n")
  parse := fun _ _ => .ok ⟨some "CONNECT", some "example.com:443"⟩
  connectHost := fun _ => .ok ()
  clientWriteRes := fun _ => .ok 1
  urlParse := fun _ => .error "unused"
  resolve := fun _ _ => .error "unused"
  connectAddr := fun _ => .error "unused"
  serverWriteRes := fun _ => .error "unused"

/- ### Helper lemmas about `pipe` -/

theorem pipe_of_pos (readRes writeRes : IOResult) (p : Nat) (hp : 0 < p) :
    pipe readRes writeRes p = pipeWritePhase writeRes p := by
  simp [pipe, pipeReadPhase, Nat.pos_iff_ne_zero.mp hp, Except.bind]

theorem pipe_zero_read_ok (writeRes : IOResult) (n : Nat) (hn : 0 < n) :
    pipe (.ok n) writeRes 0 = pipeWritePhase writeRes n := by
  cases n with
  | zero => exact absurd hn (by simp)
  | succ m => simp [pipe, pipeReadPhase, Except.bind]

theorem pipeWritePhase_cases (writeRes : IOResult) (p : Nat) (hp : 0 < p) :
    (writeRes = .ok p → pipeWritePhase writeRes p = .ok 0) ∧
    (writeRes = .wouldBlock → pipeWritePhase writeRes p = .ok p) ∧
    (writeRes = .ok 0 → pipeWritePhase writeRes p = .error .socketClosed) ∧
    (∀ b, 0 < b → b ≠ p → writeRes = .ok b →
      pipeWritePhase writeRes p =
        .error (.unknown "Unable to write all bytes to stream")) := by
  refine ⟨?_, ?_, ?_, ?_⟩
  · rintro rfl
    cases p with
    | zero => exact absurd hp (by simp)
    | succ m => simp [pipeWritePhase]
  · rintro rfl
    simp [pipeWritePhase, hp]
  · rintro rfl
    simp [pipeWritePhase, hp]
  · rintro b hb hbp rfl
    cases b with
    | zero => exact absurd hb (by simp)
    | succ m => simp [pipeWritePhase, hp, hbp]

/- ### Claims about the relay channel -/

/-- C1: for every invocation of `pipe` entered with pending `p > 0`, or
entered with pending `0` and a successful read of `n > 0` bytes (which
enters the write step with pending `n`), the write step behaves as
specified: a write accepting all pending bytes resets pending to `0` and
continues; a would-block write leaves pending unchanged and continues; a
write of `0` bytes signals peer-closed termination; a write accepting
fewer than the pending bytes but more than `0` is an unrecoverable
error. -/
theorem pipe_write_step_spec (readRes : IOResult) (p : Nat)
    (hp : 0 < p) :
    (pipe readRes (.ok p) p = .ok 0) ∧
    (pipe readRes .wouldBlock p = .ok p) ∧
    (pipe readRes (.ok 0) p = .error .socketClosed) ∧
    (∀ b, 0 < b → b < p →
      pipe readRes (.ok b) p =
        .error (.unknown "Unable to write all bytes to stream")) ∧
    (pipe (.ok p) (.ok p) 0 = .ok 0) ∧
    (pipe (.ok p) .wouldBlock 0 = .ok p) ∧
    (pipe (.ok p) (.ok 0) 0 = .error .socketClosed) ∧
    (∀ b, 0 < b → b < p →
      pipe (.ok p) (.ok b) 0 =
        .error (.unknown "Unable to write all bytes to stream")) := by
  refine ⟨?_, ?_, ?_, ?_, ?_, ?_, ?_, ?_⟩
  · rw [pipe_of_pos _ _ _ hp]
    exact (pipeWritePhase_cases _ p hp).1 rfl
  · rw [pipe_of_pos _ _ _ hp]
    exact (pipeWritePhase_cases _ p hp).2.1 rfl
  · rw [pipe_of_pos _ _ _ hp]
    exact (pipeWritePhase_cases _ p hp).2.2.1 rfl
  · intro b hb hbp
    rw [pipe_of_pos _ _ _ hp]
    exact (pipeWritePhase_cases _ p hp).2.2.2 b hb (Nat.ne_of_lt hbp) rfl
  · rw [pipe_zero_read_ok _ _ hp]
    exact (pipeWritePhase_cases _ p hp).1 rfl
  · rw [pipe_zero_read_ok _ _ hp]
    exact (pipeWritePhase_cases _ p hp).2.1 rfl
  · rw [pipe_zero_read_ok _ _ hp]
    exact (pipeWritePhase_cases _ p hp).2.2.1 rfl
  · intro b hb hbp
    rw [pipe_zero_read_ok _ _ hp]
    exact (pipeWritePhase_cases _ p hp).2.2.2 b hb (Nat.ne_of_lt hbp) rfl

theorem pipe_write_step_spec_witness :
    (0 < 5) ∧ pipe .wouldBlock .wouldBlock 5 = .ok 5 := by
  refine ⟨by decide, ?_⟩
  exact (pipe_write_step_spec .wouldBlock 5 (by decide)).2.1

/-- C2: for every invocation of `pipe` entered with pending `0`, the one
non-blocking read attempted determines the behaviour: a read of `0` bytes
signals peer-closed termination; a read of `n > 0` bytes sets pending to
`n` (the write step is then entered with pending `n`); a would-block read
leaves pending `0` and the invocation is a no-op regardless of the write
outcome; any other read error is unrecoverable. -/
theorem pipe_read_step_spec (readRes writeRes : IOResult) :
    (readRes = .ok 0 → pipe readRes writeRes 0 = .error .socketClosed) ∧
    (∀ n, 0 < n → readRes = .ok n →
      pipe readRes writeRes 0 = pipeWritePhase writeRes n) ∧
    (readRes = .wouldBlock → pipe readRes writeRes 0 = .ok 0) ∧
    (∀ e, readRes = .otherError e →
      pipe readRes writeRes 0 = .error (.unknown e)) := by
  refine ⟨?_, ?_, ?_, ?_⟩
  · rintro rfl
    simp [pipe, pipeReadPhase, Except.bind]
  · rintro n hn rfl
    exact pipe_zero_read_ok _ _ hn
  · rintro rfl
    simp [pipe, pipeReadPhase, pipeWritePhase, Except.bind]
  · rintro e rfl
    simp [pipe, pipeReadPhase, Except.bind]

theorem pipe_read_step_spec_witness :
    IOResult.wouldBlock = IOResult.wouldBlock ∧
      pipe .wouldBlock (.ok 7) 0 = .ok 0 :=
  ⟨rfl, (pipe_read_step_spec .wouldBlock (.ok 7)).2.2.1 rfl⟩

/-- C5: for every invocation of `pipe`, if the entry pending count is at
most the buffer capacity and any successful read returns at most the
buffer capacity (the I/O contract of `read` on a slice), then the returned
pending count is at most the buffer capacity (and, being a natural number,
at least 0); and when entered with pending `> 0` the read outcome is never
consulted — the channel drains before refilling, so unflushed data is
never overwritten. -/
theorem pipeWritePhase_le (writeRes : IOResult) (p cap : Nat)
    (hpcap : p ≤ cap) :
    ∀ q, pipeWritePhase writeRes p = .ok q → q ≤ cap := by
  intro q hq
  unfold pipeWritePhase at hq
  split at hq
  · split at hq
    · cases hq
    · split at hq
      · cases hq
        exact Nat.zero_le _
      · cases hq
    · cases hq
      exact hpcap
    · cases hq
  · cases hq
    exact hpcap

theorem pipeReadPhase_le (readRes : IOResult) (p cap : Nat)
    (hpcap : p ≤ cap)
    (hread : ∀ n, readRes = .ok n → n ≤ cap) :
    ∀ r, pipeReadPhase readRes p = .ok r → r ≤ cap := by
  intro r hr
  unfold pipeReadPhase at hr
  split at hr
  · split at hr
    · cases hr
    · cases hr
      exact hread _ rfl
    · cases hr
      exact Nat.zero_le _
    · cases hr
  · cases hr
    exact hpcap

theorem pipe_pending_invariant (readRes writeRes : IOResult) (p cap : Nat)
    (hpcap : p ≤ cap)
    (hread : ∀ n, readRes = .ok n → n ≤ cap) :
    (∀ q, pipe readRes writeRes p = .ok q → q ≤ cap) ∧
    (0 < p → ∀ readRes2, pipe readRes writeRes p = pipe readRes2 writeRes p) := by
  constructor
  · intro q hq
    unfold pipe at hq
    cases hr : pipeReadPhase readRes p with
    | error e => rw [hr] at hq; cases hq
    | ok r =>
        rw [hr] at hq
        simp only [Except.bind] at hq
        exact pipeWritePhase_le writeRes r cap
          (pipeReadPhase_le readRes p cap hpcap hread r hr) q hq
  · intro hp readRes2
    rw [pipe_of_pos _ _ _ hp, pipe_of_pos _ _ _ hp]

theorem pipe_pending_invariant_witness :
    (3 ≤ 4096 ∧ (∀ n, (IOResult.wouldBlock = IOResult.ok n) → n ≤ 4096)) ∧
      (∀ q, pipe .wouldBlock .wouldBlock 3 = .ok q → q ≤ 4096) := by
  refine ⟨⟨by decide, ?_⟩, ?_⟩
  · intro n h
    cases h
  · exact (pipe_pending_invariant .wouldBlock .wouldBlock 3 4096 (by decide)
      (by intro n h; cases h)).1

/- ### Claims about the handshake -/

/-- C3 (code defect): in plain-HTTP mode the upstream write is handed the
whole 1024-byte `initial_request_buffer` — the 55 bytes of the example
request `GET http://example.com/ HTTP/1.1\r\nHost: example.com\r\n\r\n`
followed by 969 zero bytes — not the request bytes alone, because line 83
writes `&initial_request_buffer` and line 58 discarded the read count. -/
theorem plain_http_forwards_padded_buffer :
    (handshake exampleEnv).serverWrites.map WriteCall.data
        = [initialRequestBuffer exampleRequest] ∧
    (handshake exampleEnv).outcome = .established false ∧
    exampleRequest.length = 55 ∧
    (initialRequestBuffer exampleRequest).length = 1024 ∧
    initialRequestBuffer exampleRequest ≠ exampleRequest := by
  have hlen : exampleRequest.length = 55 := by rfl
  have hbuf : (initialRequestBuffer exampleRequest).length = 1024 := by
    rw [initialRequestBuffer, List.length_append, List.length_take,
      List.length_replicate, hlen]
    omega
  refine ⟨rfl, rfl, hlen, hbuf, fun h => ?_⟩
  have h2 := congrArg List.length h
  rw [hbuf, hlen] at h2
  exact absurd h2 (by decide)

/-- C4: for a CONNECT request whose upstream TCP connect succeeds, the
handshake issues exactly one client write, whose data is the literal
reply `HTTP/1.1 200 OK\r\n\r\n`, writes nothing upstream (the buffered
CONNECT line and headers are consumed, not relayed), and when the write
accepts the full reply the client receives exactly those bytes before the
relay (and hence before any tunneled bytes). -/
theorem connect_reply_exact (env : NetEnv) (data : List Nat)
    (req : ParsedRequest) (path : String) (n : Nat)
    (hr : env.clientRead = .ok data)
    (hp : env.parse maxHeaders (initialRequestBuffer data) = .ok req)
    (hm : req.method = some "CONNECT")
    (hpath : req.path = some path)
    (hc : env.connectHost path = .ok ())
    (hw : env.clientWriteRes connectOkReply = .ok n) :
    (handshake env).clientWrites = [⟨connectOkReply, .ok n⟩] ∧
    (handshake env).serverWrites = [] ∧
    (n = connectOkReply.length →
      delivered (handshake env).clientWrites = connectOkReply) ∧
    connectOkReply = bytesOfString "HTTP/1.1 200 OK\r\n\r\n" := by
  have htr : handshake env
      = ⟨[⟨connectOkReply, .ok n⟩], [], [.hostPort path],
          .established true⟩ := by
    simp [handshake, hr, hp, hm, hpath, hc, hw]
  refine ⟨by rw [htr], by rw [htr], fun hn => ?_, rfl⟩
  rw [htr]
  simp [delivered, hn]

theorem connect_reply_exact_witness :
    (handshake exampleConnectEnv).clientWrites
        = [⟨connectOkReply, .ok 19⟩] ∧
    (handshake exampleConnectEnv).serverWrites = [] ∧
    delivered (handshake exampleConnectEnv).clientWrites = connectOkReply := by
  have h := connect_reply_exact exampleConnectEnv
    (bytesOfString "CONNECT example.com:443 HTTP/1.1\r\n\r\n")
    ⟨some "CONNECT", some "example.com:443"⟩ "example.com:443" 19
    rfl rfl rfl rfl rfl rfl
  exact ⟨h.1, h.2.1, h.2.2.1 rfl⟩

/-- C6: the relay loop runs the client→server channel first and the
server→client channel second in every iteration; a peer-closed signal
from the first is reported as "Client socket closed" and from the second
as "Server socket closed", an unknown error is reported as its message,
either report ends the whole connection regardless of the remaining
iterations (no partial-success path), and when both channels continue the
loop goes on with the updated pending counts. -/
theorem relay_alternation_reports (it : RelayIter) (rest : List RelayIter)
    (p q : Nat) :
    (pipe it.fromClient it.toServer p = .error .socketClosed →
      relayLoop (it :: rest) (p, q) = .error "Client socket closed") ∧
    (∀ e, pipe it.fromClient it.toServer p = .error (.unknown e) →
      relayLoop (it :: rest) (p, q) = .error e) ∧
    (∀ p2, pipe it.fromClient it.toServer p = .ok p2 →
      (pipe it.fromServer it.toClient q = .error .socketClosed →
        relayLoop (it :: rest) (p, q) = .error "Server socket closed") ∧
      (∀ e, pipe it.fromServer it.toClient q = .error (.unknown e) →
        relayLoop (it :: rest) (p, q) = .error e) ∧
      (∀ q2, pipe it.fromServer it.toClient q = .ok q2 →
        relayLoop (it :: rest) (p, q) = relayLoop rest (p2, q2))) := by
  refine ⟨fun h1 => ?_, fun e h1 => ?_, fun p2 h1 => ⟨fun h2 => ?_,
    fun e h2 => ?_, fun q2 h2 => ?_⟩⟩ <;>
    simp [relayLoop, relayStep, h1]
  · simp [h2]
  · simp [h2]
  · simp [h2]

theorem relay_alternation_reports_witness :
    relayLoop [⟨.ok 0, .wouldBlock, .wouldBlock, .wouldBlock⟩] (0, 0)
      = .error "Client socket closed" :=
  (relay_alternation_reports
    ⟨.ok 0, .wouldBlock, .wouldBlock, .wouldBlock⟩ [] 0 0).1 (by decide)

/-- C7: when the initial read succeeds but the buffer fails to parse as an
HTTP request line plus headers (the header array holds `maxHeaders = 16`
slots), the handshake aborts with the parse error, attempts no upstream
connection, and sends nothing to the client. -/
theorem parse_failure_aborts (env : NetEnv) (data : List Nat) (e : String)
    (hr : env.clientRead = .ok data)
    (hp : env.parse maxHeaders (initialRequestBuffer data) = .error e) :
    handshake env = earlyFail e ∧
    (handshake env).connects = [] ∧
    delivered (handshake env).clientWrites = [] ∧
    (handshake env).outcome = .failed e := by
  have htr : handshake env = earlyFail e := by
    simp [handshake, hr, hp, earlyFail]
  exact ⟨htr, by rw [htr]; rfl, by rw [htr]; rfl, by rw [htr]; rfl⟩

theorem parse_failure_aborts_witness :
    handshake badParseEnv = earlyFail "bad request" :=
  (parse_failure_aborts badParseEnv exampleRequest "bad request"
    rfl rfl).1

/-- C8: in every handshake the data of every client write call is the
literal CONNECT success reply — the proxy never generates any other bytes
for the client — and whenever the handshake fails (including a CONNECT
target refusing the TCP connection) the client receives no bytes at all:
every failing path either made no client write call or its single write
call itself failed. -/
theorem client_only_sees_connect_reply (env : NetEnv) :
    (∀ w ∈ (handshake env).clientWrites, w.data = connectOkReply) ∧
    (∀ e, (handshake env).outcome = .failed e →
      delivered (handshake env).clientWrites = []) := by
  unfold handshake
  constructor
  · repeat' split
    all_goals simp [earlyFail]
  · repeat' split
    all_goals simp [earlyFail, delivered]

theorem client_only_sees_connect_reply_witness :
    delivered (handshake refusedConnectEnv).clientWrites = [] :=
  (client_only_sees_connect_reply refusedConnectEnv).2
    "Connection refused" rfl

/-- C9: in plain-HTTP mode the path is parsed as an absolute URL and the
host is resolved at the URL's port, defaulting to 80 when the URL gives
none; a resolution error or an empty address list aborts the handshake;
and otherwise only the first resolved address is ever connected to, a
connect failure aborting the handshake with no fallback to the remaining
addresses. -/
theorem plain_http_resolution (env : NetEnv) (data : List Nat)
    (req : ParsedRequest) (method path : String) (u : ModelUrl)
    (hr : env.clientRead = .ok data)
    (hp : env.parse maxHeaders (initialRequestBuffer data) = .ok req)
    (hm : req.method = some method)
    (hmc : method ≠ "CONNECT")
    (hpath : req.path = some path)
    (hu : env.urlParse path = .ok u) :
    (socketAddrs env.resolve u (some 80)
        = env.resolve u.host (u.port.getD 80)) ∧
    (∀ e, env.resolve u.host (u.port.getD 80) = .error e →
      handshake env = earlyFail e) ∧
    (env.resolve u.host (u.port.getD 80) = .ok [] →
      handshake env = earlyFail "Unable to parse url into socket address") ∧
    (∀ a rest, env.resolve u.host (u.port.getD 80) = .ok (a :: rest) →
      (handshake env).connects = [.addr a] ∧
      (∀ e, env.connectAddr a = .error e →
        (handshake env).outcome = .failed e)) := by
  have hsa : socketAddrs env.resolve u (some 80)
      = env.resolve u.host (u.port.getD 80) := by
    cases hport : u.port with
    | none => simp [socketAddrs, hport, Option.orElse]
    | some prt => simp [socketAddrs, hport, Option.orElse]
  refine ⟨hsa, fun e hres => ?_, fun hres => ?_, fun a rest hres => ?_⟩
  · simp only [handshake, hr, hp, hm, hpath]
    rw [if_neg hmc]
    simp only [hu, hsa, hres]
  · simp only [handshake, hr, hp, hm, hpath]
    rw [if_neg hmc]
    simp only [hu, hsa, hres, List.head?]
  · have htr : handshake env
        = (match env.connectAddr a with
           | .error e => ⟨[], [], [.addr a], .failed e⟩
           | .ok _ =>
             match env.serverWriteRes (initialRequestBuffer data) with
             | .error e =>
                 ⟨[], [⟨initialRequestBuffer data, .error e⟩],
                   [.addr a], .failed e⟩
             | .ok n =>
                 ⟨[], [⟨initialRequestBuffer data, .ok n⟩],
                   [.addr a], .established false⟩ : HandshakeTrace) := by
      simp only [handshake, hr, hp, hm, hpath]
      rw [if_neg hmc]
      simp only [hu, hsa, hres, List.head?]
    constructor
    · rw [htr]
      cases hca : env.connectAddr a with
      | error e2 => simp
      | ok u2 =>
          cases hsw : env.serverWriteRes (initialRequestBuffer data) with
          | error e2 => simp [hca]
          | ok n2 => simp [hca]
    · intro e hca
      rw [htr, hca]

theorem plain_http_resolution_witness :
    (handshake exampleEnv).connects
      = [ConnectTarget.addr ("93.184.216.34", 80)] :=
  ((plain_http_resolution exampleEnv exampleRequest
    ⟨some "GET", some "http://example.com/"⟩ "GET" "http://example.com/"
    ⟨"example.com", none⟩ rfl rfl rfl (by decide) rfl rfl).2.2.2
    ("93.184.216.34", 80) [] rfl).1

/-- C10: the byte counts of the two blocking handshake writes are
discarded: once the CONNECT branch reaches its client write, any `Ok n`
result — including a short write of fewer than the 19 reply bytes — lets
the handshake succeed and the relay proceed, and likewise any `Ok n` from
the plain-HTTP upstream write; only an `Err` from the write aborts the
connection. -/
theorem write_counts_discarded (env : NetEnv) (data : List Nat)
    (req : ParsedRequest) (path : String)
    (hr : env.clientRead = .ok data)
    (hp : env.parse maxHeaders (initialRequestBuffer data) = .ok req)
    (hpath : req.path = some path) :
    (req.method = some "CONNECT" → env.connectHost path = .ok () →
      (∀ n, env.clientWriteRes connectOkReply = .ok n →
        (handshake env).outcome = .established true) ∧
      (∀ e, env.clientWriteRes connectOkReply = .error e →
        (handshake env).outcome = .failed e)) ∧
    (∀ method, req.method = some method → method ≠ "CONNECT" →
      ∀ u a rest, env.urlParse path = .ok u →
        env.resolve u.host (u.port.getD 80) = .ok (a :: rest) →
        env.connectAddr a = .ok () →
        (∀ n, env.serverWriteRes (initialRequestBuffer data) = .ok n →
          (handshake env).outcome = .established false) ∧
        (∀ e, env.serverWriteRes (initialRequestBuffer data) = .error e →
          (handshake env).outcome = .failed e)) := by
  have hsa : ∀ u : ModelUrl, socketAddrs env.resolve u (some 80)
      = env.resolve u.host (u.port.getD 80) := by
    intro u
    cases hport : u.port with
    | none => simp [socketAddrs, hport, Option.orElse]
    | some prt => simp [socketAddrs, hport, Option.orElse]
  constructor
  · intro hm hc
    constructor
    · intro n hw
      simp [handshake, hr, hp, hm, hpath, hc, hw]
    · intro e hw
      simp [handshake, hr, hp, hm, hpath, hc, hw]
  · intro method hm hmc u a rest hu hres hca
    constructor
    · intro n hw
      simp only [handshake, hr, hp, hm, hpath]
      rw [if_neg hmc]
      simp only [hu, hsa, hres, List.head?, hca, hw]
    · intro e hw
      simp only [handshake, hr, hp, hm, hpath]
      rw [if_neg hmc]
      simp only [hu, hsa, hres, List.head?, hca, hw]

theorem write_counts_discarded_witness :
    (handshake shortWriteEnv).outcome = .established true :=
  ((write_counts_discarded shortWriteEnv
    (bytesOfString "CONNECT example.com:443 HTTP/1.1\r\n\r\n")
    ⟨some "CONNECT", some "example.com:443"⟩ "example.com:443"
    rfl rfl rfl).1 rfl rfl).1 1 rfl

end ProxyServer
